import Mathlib

/-!
Shallow embedding of the `rest_requests` module
(`src/rest_requests/__init__.py`): an asynchronous REST request helper built
on an aiohttp client session, with JSON payloads, optional proxy routing and
a dry-run mode.

Modelling choices:
* Python dicts of headers become partial maps `String → Option String`;
  the Python dict union `a | b` (right operand wins on key collision)
  becomes `dictOr`.
* JSON values become the inductive `JSON` (floating-point numbers are not
  modelled; no verified property depends on a numeric body value).
* The aiohttp session becomes a record of seven verb-specific sender
  functions (`session.get`, `session.head`, ...), each a pure function from
  (url, headers, json body) to a `Response`.  `aiohttp.ClientResponse` is
  modelled by the `Response` structure, whose `content_type` field is the
  declared content type of the response and whose `jsonBody`/`textBody`
  fields are what `.json()` / `.text()` would decode.
* Exceptions become `Except RequestError`; `RuntimeError` for an
  unsupported content type and `aiohttp.ClientResponseError` raised by
  `response.raise_for_status()` become the two `RequestError` variants.
* Effects are made explicit as traces in the outcome records: `sends` lists
  one event per transport-sender invocation, `connectors` lists each
  constructed `ProxyConnector`, and `sessions` lists the configuration of
  each constructed client session.  The caller-visible values of the
  `headers` and `body` arguments after the call are threaded through as
  `callerHeadersAfter` / `callerBodyAfter` (the source only rebinds the
  local name `headers` to a freshly allocated union dict; it never mutates
  the caller's objects).
-/

namespace RestRequests

/-- JSON values (`_JSONNode` in the source).  Numbers are modelled as
integers; floating-point values are not needed by any verified property. -/
inductive JSON where
  | str (s : String)
  | num (n : Int)
  | bool (b : Bool)
  | null
  | obj (fields : List (String × JSON))
  | arr (items : List JSON)

/-- HTTP request methods, the `RequestMethod` enum of the source. -/
inductive RequestMethod where
  | GET
  | HEAD
  | POST
  | PUT
  | DELETE
  | OPTIONS
  | PATCH
deriving DecidableEq, Repr

/-- A header dict: a partial map from header names to values. -/
def Headers : Type := String → Option String

/-- The empty dict `{}`. -/
def emptyHeaders : Headers := fun _ => none

/-- Python dict union `a | b`: the right operand wins on key collision. -/
def dictOr (a b : Headers) : Headers :=
  fun k =>
    match b k with
    | some v => some v
    | none => a k

/-- The literal dict `{"Content-Type": "application/json"}`. -/
def contentTypeJson : Headers :=
  fun k => if k = "Content-Type" then some "application/json" else none

/-- The header merge of `_request` (line 45 of the source):
`headers = (headers or {}) | {"Content-Type": "application/json"}`.
A `None` (or empty, which Python treats as falsy) caller dict becomes `{}`. -/
def mergedHeaders (headers : Option Headers) : Headers :=
  dictOr (headers.getD emptyHeaders) contentTypeJson

/-- Prefix test on character lists, the recursion behind `strStartsWith`. -/
def listStartsWith : List Char → List Char → Bool
  | _, [] => true
  | [], _ :: _ => false
  | a :: as, b :: bs => a = b && listStartsWith as bs

/-- Python `str.startswith`: does the first string start with the second?
Defined by recursion on the character lists so that it evaluates inside
proofs. -/
def strStartsWith (s p : String) : Bool :=
  listStartsWith s.toList p.toList

/-- Model of an `aiohttp.ClientResponse`: the declared content type, the
HTTP status with its reason phrase and effective URL, and the values that
`.json()` and `.text()` would decode from the body. -/
structure Response where
  content_type : String
  status : Nat
  reason : String
  url : String
  jsonBody : JSON
  textBody : String

/-- Errors raised by a request, modelling the two exception kinds of
`_request`: the `RuntimeError` for an unsupported response content type and
the `aiohttp.ClientResponseError` raised by `raise_for_status`. -/
inductive RequestError where
  | unsupportedContentType (content_type : String)
  | httpStatusError (status : Nat) (reason : String) (url : String)
deriving DecidableEq, Repr

/-- `response.raise_for_status()`: raises a status error carrying the
status code, reason phrase and effective URL when the status is 400 or
above, and is a no-op otherwise. -/
def Response.raise_for_status (r : Response) : Except RequestError Unit :=
  if 400 ≤ r.status then
    .error (.httpStatusError r.status r.reason r.url)
  else
    .ok ()

/-- The value `_request` produces on success: `str | dict[str, Any]` in the
source, i.e. either the raw response text or a decoded JSON value. -/
inductive ResultBody where
  | text (s : String)
  | json (j : JSON)

/-- A verb-specific sender of the transport session: given url, headers and
json body it performs the round trip and yields the response. -/
def SendFn : Type := String → Headers → JSON → Response

/-- Model of an `aiohttp.ClientSession`, reduced to its seven verb-specific
send operations. -/
structure ClientSession where
  get : SendFn
  head : SendFn
  post : SendFn
  put : SendFn
  delete : SendFn
  options : SendFn
  patch : SendFn

/-- `_resolve_method`: the closed-set dispatch from each `RequestMethod`
variant to the session's corresponding verb-specific send operation
(lines 75-94 of the source). -/
def _resolve_method (method : RequestMethod) (session : ClientSession) : SendFn :=
  match method with
  | .GET => session.get
  | .HEAD => session.head
  | .POST => session.post
  | .PUT => session.put
  | .DELETE => session.delete
  | .OPTIONS => session.options
  | .PATCH => session.patch

/-- The content-type dispatch of `_request` (lines 63-70 of the source):
exact match `"application/json"` decodes the JSON body, a content type
starting with `"text/plain"` decodes the raw text, anything else raises
the unsupported-content-type error. -/
def decodeResponse (response : Response) : Except RequestError ResultBody :=
  if response.content_type = "application/json" then
    .ok (.json response.jsonBody)
  else if strStartsWith response.content_type "text/plain" then
    .ok (.text response.textBody)
  else
    .error (.unsupportedContentType response.content_type)

/-- One invocation of a transport sender: the event recorded in the trace
each time a verb-specific send operation is actually called. -/
structure SendEvent where
  method : RequestMethod
  url : String
  headers : Headers
  body : JSON

/-- Outcome of `_request`: the returned value or raised error, the trace of
transport-sender invocations, and the caller-visible values of the
`headers` and `body` arguments after the call. -/
structure InnerOutcome where
  result : Except RequestError ResultBody
  sends : List SendEvent
  callerHeadersAfter : Option Headers
  callerBodyAfter : JSON

/-- `_request` (lines 33-72 of the source).  Merges the headers under the
forced `Content-Type`, resolves the verb to a sender, short-circuits with
an empty dict on dry runs, and otherwise sends the request, decodes the
response by content type, then validates the status.  The source rebinds
the local name `headers` to the freshly allocated union dict; the caller's
`headers` and `body` objects are never mutated, which the outcome records
in `callerHeadersAfter` / `callerBodyAfter`. -/
def _request (method : RequestMethod) (url : String) (headers : Option Headers)
    (body : JSON) (session : ClientSession) (dry_run : Bool) : InnerOutcome :=
  let merged := mergedHeaders headers
  let request_func := _resolve_method method session
  if dry_run then
    { result := .ok (.json (.obj []))
      sends := []
      callerHeadersAfter := headers
      callerBodyAfter := body }
  else
    let response := request_func url merged body
    let result :=
      match decodeResponse response with
      | .error e => .error e
      | .ok response_body =>
        match response.raise_for_status with
        | .error e => .error e
        | .ok _ => .ok response_body
    { result := result
      sends := [{ method := method, url := url, headers := merged, body := body }]
      callerHeadersAfter := headers
      callerBodyAfter := body }

/-- Model of `aiohttp.ClientTimeout` with the three fields `request` sets. -/
structure ClientTimeout where
  total : Option Int
  sock_connect : Option Int
  sock_read : Option Int
deriving DecidableEq, Repr

/-- Model of an `aiohttp_socks.ProxyConnector`, identified by the proxy URL
it was constructed from. -/
structure ProxyConnector where
  url : String
deriving DecidableEq, Repr

/-- `ProxyConnector.from_url`. -/
def ProxyConnector.from_url (u : String) : ProxyConnector := ⟨u⟩

/-- The configuration a client session is constructed with: its timeout and
its optional proxy connector. -/
structure SessionConfig where
  timeout : ClientTimeout
  connector : Option ProxyConnector
deriving DecidableEq, Repr

/-- Outcome of the public `request`: the result and caller-state fields of
the inner call, plus the trace of constructed proxy connectors and of
constructed client sessions (recorded by their configuration). -/
structure RequestOutcome where
  result : Except RequestError ResultBody
  sends : List SendEvent
  callerHeadersAfter : Option Headers
  callerBodyAfter : JSON
  connectors : List ProxyConnector
  sessions : List SessionConfig

/-- The public `request` (lines 97-131 of the source), parametrised by the
environment `transport`, which yields the verb senders of the session
constructed from a given configuration.  It builds the session timeout with
no total bound and the configured value for both the connect and the read
phase, constructs a proxy connector exactly when `proxy_url` is supplied,
opens the session, and delegates to `_request`. -/
def request (transport : SessionConfig → ClientSession) (method : RequestMethod)
    (url : String) (headers : Option Headers) (body : JSON) (timeout : Int)
    (proxy_url : Option String) (dry_run : Bool) : RequestOutcome :=
  let session_timeout : ClientTimeout :=
    { total := none, sock_connect := some timeout, sock_read := some timeout }
  let connector := proxy_url.map ProxyConnector.from_url
  let config : SessionConfig := { timeout := session_timeout, connector := connector }
  let session := transport config
  let inner := _request method url headers body session dry_run
  { result := inner.result
    sends := inner.sends
    callerHeadersAfter := inner.callerHeadersAfter
    callerBodyAfter := inner.callerBodyAfter
    connectors := connector.toList
    sessions := [config] }

/-!
Concrete fixtures used by the witness theorems.
-/

/-- A session whose seven senders all return the same fixed response. -/
def constSession (r : Response) : ClientSession :=
  { get := fun _ _ _ => r
    head := fun _ _ _ => r
    post := fun _ _ _ => r
    put := fun _ _ _ => r
    delete := fun _ _ _ => r
    options := fun _ _ _ => r
    patch := fun _ _ _ => r }

/-- A transport environment built over `constSession`. -/
def constTransport (r : Response) : SessionConfig → ClientSession :=
  fun _ => constSession r

/-- A successful JSON response fixture. -/
def jsonOkResponse : Response :=
  { content_type := "application/json"
    status := 200
    reason := "OK"
    url := "http://example.org/api"
    jsonBody := .obj [("a", .num 1)]
    textBody := "" }

/-- A failing XML response fixture (unsupported content type, status 404). -/
def xmlNotFoundResponse : Response :=
  { content_type := "application/xml"
    status := 404
    reason := "Not Found"
    url := "http://example.org/api"
    jsonBody := .null
    textBody := "<e/>" }

/-- A failing plain-text response fixture (status 500). -/
def textErrorResponse : Response :=
  { content_type := "text/plain"
    status := 500
    reason := "Internal Server Error"
    url := "http://example.org/api"
    jsonBody := .null
    textBody := "boom" }

/-- A caller header dict fixture that also supplies a Content-Type. -/
def callerHeadersFixture : Headers :=
  fun k =>
    if k = "Content-Type" then some "text/csv"
    else if k = "X-Token" then some "secret"
    else none

/-!
Theorems settling the claims.
-/

/-- C1: for every non-dry-run call, response decoding dispatches on the
response's declared content type: an exact `application/json` makes the
decoded JSON body the result candidate, a content type starting with
`text/plain` makes the raw text the result candidate, and any other content
type fails with the unsupported-content-type error independently of the
HTTP status, i.e. before the status is checked. -/
theorem content_type_dispatch (m : RequestMethod) (url : String)
    (h : Option Headers) (b : JSON) (s : ClientSession) (r : Response)
    (hresp : _resolve_method m s url (mergedHeaders h) b = r) :
    (r.content_type = "application/json" →
      (_request m url h b s false).result =
        if 400 ≤ r.status then
          .error (.httpStatusError r.status r.reason r.url)
        else
          .ok (.json r.jsonBody))
    ∧ (r.content_type ≠ "application/json" →
        strStartsWith r.content_type "text/plain" = true →
      (_request m url h b s false).result =
        if 400 ≤ r.status then
          .error (.httpStatusError r.status r.reason r.url)
        else
          .ok (.text r.textBody))
    ∧ (r.content_type ≠ "application/json" →
        strStartsWith r.content_type "text/plain" = false →
      (_request m url h b s false).result =
        .error (.unsupportedContentType r.content_type)) := by
  refine ⟨fun hct => ?_, fun hct hpre => ?_, fun hct hpre => ?_⟩
  · by_cases hst : 400 ≤ r.status <;>
      simp [_request, hresp, decodeResponse, Response.raise_for_status, hct, hst]
  · by_cases hst : 400 ≤ r.status <;>
      simp [_request, hresp, decodeResponse, Response.raise_for_status, hct, hpre, hst]
  · simp [_request, hresp, decodeResponse, hct, hpre]

/-- C1 witness: on a concrete unsupported-content-type response with a
failing status, the call reports the unsupported content type, not the
status. -/
theorem content_type_dispatch_witness :
    (_request .GET "http://example.org/api" none (.obj []) (constSession xmlNotFoundResponse)
        false).result = .error (.unsupportedContentType "application/xml") :=
  (content_type_dispatch .GET "http://example.org/api" none (.obj [])
    (constSession xmlNotFoundResponse) xmlNotFoundResponse rfl).2.2
    (by simp [xmlNotFoundResponse]) (by decide)

/-- C2: for every non-dry-run call whose response content type is supported
(exact `application/json` or a `text/plain` prefix), a failing HTTP status
(4xx/5xx, i.e. 400 or above) makes the call raise the status error carrying
the status code, reason and effective URL; the already-decoded body is
discarded, as the result is this error and not a returned value. -/
theorem status_checked_after_decode (m : RequestMethod) (url : String)
    (h : Option Headers) (b : JSON) (s : ClientSession) (r : Response)
    (hresp : _resolve_method m s url (mergedHeaders h) b = r)
    (hct : r.content_type = "application/json" ∨
      strStartsWith r.content_type "text/plain" = true)
    (hstatus : 400 ≤ r.status) :
    (_request m url h b s false).result =
      .error (.httpStatusError r.status r.reason r.url) := by
  have hdec : ∃ rb, decodeResponse r = Except.ok rb := by
    rcases hct with hj | ht
    · exact ⟨.json r.jsonBody, by simp [decodeResponse, hj]⟩
    · by_cases hj : r.content_type = "application/json"
      · exact ⟨.json r.jsonBody, by simp [decodeResponse, hj]⟩
      · exact ⟨.text r.textBody, by simp [decodeResponse, hj, ht]⟩
  rcases hdec with ⟨rb, hrb⟩
  simp [_request, hresp, hrb, Response.raise_for_status, hstatus]

/-- C2 witness: a concrete plain-text response with status 500 raises the
status error carrying code, reason and URL. -/
theorem status_checked_after_decode_witness :
    (_request .POST "http://example.org/api" none (.obj []) (constSession textErrorResponse)
        false).result =
      .error (.httpStatusError 500 "Internal Server Error" "http://example.org/api") :=
  status_checked_after_decode .POST "http://example.org/api" none (.obj [])
    (constSession textErrorResponse) textErrorResponse rfl
    (Or.inr (by decide)) (by simp [textErrorResponse])

/-- C3: for every call, the effective request headers equal the caller
headers (empty when none are supplied) unioned with the single-entry dict
forcing `Content-Type: application/json`, the forced entry winning on key
collision; consequently every recorded outgoing send carries exactly these
merged headers and in particular `Content-Type: application/json`. -/
theorem headers_force_content_type (h : Option Headers) :
    mergedHeaders h = dictOr (h.getD emptyHeaders) contentTypeJson
    ∧ mergedHeaders h "Content-Type" = some "application/json"
    ∧ (∀ k, k ≠ "Content-Type" → mergedHeaders h k = (h.getD emptyHeaders) k)
    ∧ (∀ t m url b timeout p dr, ∀ e ∈ (request t m url h b timeout p dr).sends,
        e.headers = mergedHeaders h ∧
          e.headers "Content-Type" = some "application/json") := by
  refine ⟨rfl, by simp [mergedHeaders, dictOr, contentTypeJson], fun k hk => ?_, ?_⟩
  · simp [mergedHeaders, dictOr, contentTypeJson, hk]
  · intro t m url b timeout p dr e he
    cases dr with
    | false =>
      simp only [request, _request, if_false, Bool.false_eq_true, List.mem_singleton] at he
      subst he
      exact ⟨rfl, by simp [mergedHeaders, dictOr, contentTypeJson]⟩
    | true =>
      simp [request, _request] at he

/-- C3 witness: with a caller dict that supplies its own Content-Type, the
merged headers force `application/json`, keep the unrelated key, and the
send recorded by a concrete non-dry-run call carries them. -/
theorem headers_force_content_type_witness :
    mergedHeaders (some callerHeadersFixture) "Content-Type" = some "application/json"
    ∧ mergedHeaders (some callerHeadersFixture) "X-Token" = some "secret"
    ∧ ∀ e ∈ (request (constTransport jsonOkResponse) .GET "http://example.org/api"
          (some callerHeadersFixture) (.obj []) 600 none false).sends,
        e.headers "Content-Type" = some "application/json" :=
  ⟨(headers_force_content_type (some callerHeadersFixture)).2.1,
    ((headers_force_content_type (some callerHeadersFixture)).2.2.1 "X-Token"
      (by decide)).trans rfl,
    fun e he => ((headers_force_content_type (some callerHeadersFixture)).2.2.2
      (constTransport jsonOkResponse) .GET "http://example.org/api" (.obj []) 600 none false
      e he).2⟩

/-- C4: with `dry_run` true, `request` returns the empty mapping, records no
transport-sender invocation, and its whole outcome is independent of the
transport environment — no network I/O occurs. -/
theorem dry_run_no_network (t t' : SessionConfig → ClientSession) (m : RequestMethod)
    (url : String) (h : Option Headers) (b : JSON) (timeout : Int) (p : Option String) :
    (request t m url h b timeout p true).result = .ok (.json (.obj []))
    ∧ (request t m url h b timeout p true).sends = []
    ∧ request t m url h b timeout p true = request t' m url h b timeout p true :=
  ⟨rfl, rfl, rfl⟩

/-- C5: `_resolve_method` maps each of the seven `RequestMethod` variants to
the session's corresponding verb-specific send operation; the seven
equations cover the whole enumeration, so the dispatch is exhaustive. -/
theorem verb_dispatch (s : ClientSession) :
    _resolve_method .GET s = s.get
    ∧ _resolve_method .HEAD s = s.head
    ∧ _resolve_method .POST s = s.post
    ∧ _resolve_method .PUT s = s.put
    ∧ _resolve_method .DELETE s = s.delete
    ∧ _resolve_method .OPTIONS s = s.options
    ∧ _resolve_method .PATCH s = s.patch :=
  ⟨rfl, rfl, rfl, rfl, rfl, rfl, rfl⟩

/-- C6: every call constructs its session with the configured timeout
applied separately to the connect phase and the read phase, and with no
bound on the total call duration (`total` is `none`). -/
theorem timeout_connect_and_read (t : SessionConfig → ClientSession)
    (m : RequestMethod) (url : String) (h : Option Headers) (b : JSON)
    (timeout : Int) (p : Option String) (dr : Bool) :
    (request t m url h b timeout p dr).sessions =
      [{ timeout := { total := none, sock_connect := some timeout, sock_read := some timeout }
         connector := p.map ProxyConnector.from_url }] :=
  rfl

/-- C7: when `proxy_url` is supplied, exactly one proxy connector is
constructed from that URL and the session is configured with it; when
`proxy_url` is omitted, no proxy connector is constructed. -/
theorem proxy_connector_construction (t : SessionConfig → ClientSession)
    (m : RequestMethod) (url : String) (h : Option Headers) (b : JSON)
    (timeout : Int) (dr : Bool) :
    (∀ u, (request t m url h b timeout (some u) dr).connectors = [ProxyConnector.from_url u]
      ∧ (request t m url h b timeout (some u) dr).sessions =
        [{ timeout := { total := none, sock_connect := some timeout, sock_read := some timeout }
           connector := some (ProxyConnector.from_url u) }])
    ∧ (request t m url h b timeout none dr).connectors = [] :=
  ⟨fun _ => ⟨rfl, rfl⟩, rfl⟩

/-- C8: dry-run calls are idempotent and side-effect-free: every outcome in
any number of repetitions of a dry-run call with identical inputs is the
same empty mapping, records no transport-sender invocation, and leaves the
caller's `headers` and `body` arguments unchanged. -/
theorem dry_run_idempotent (t : SessionConfig → ClientSession) (m : RequestMethod)
    (url : String) (h : Option Headers) (b : JSON) (timeout : Int) (p : Option String)
    (k : Nat) :
    ∀ o ∈ List.replicate k (request t m url h b timeout p true),
      o.result = .ok (.json (.obj []))
      ∧ o.sends = []
      ∧ o.callerHeadersAfter = h
      ∧ o.callerBodyAfter = b := by
  intro o ho
  rcases List.eq_of_mem_replicate ho with rfl
  exact ⟨rfl, rfl, rfl, rfl⟩

/-- C8 witness: the first of two repetitions of a concrete dry-run call
returns the empty mapping and records no send. -/
theorem dry_run_idempotent_witness :
    (request (constTransport jsonOkResponse) .GET "http://example.org/api" none (.obj [])
        600 none true).result = .ok (.json (.obj []))
    ∧ (request (constTransport jsonOkResponse) .GET "http://example.org/api" none (.obj [])
        600 none true).sends = [] := by
  have hmem : request (constTransport jsonOkResponse) .GET "http://example.org/api" none
      (.obj []) 600 none true ∈ List.replicate 2 (request (constTransport jsonOkResponse)
      .GET "http://example.org/api" none (.obj []) 600 none true) :=
    List.mem_replicate.mpr ⟨by decide, rfl⟩
  have hres := dry_run_idempotent (constTransport jsonOkResponse) .GET "http://example.org/api"
    none (.obj []) 600 none 2 _ hmem
  exact ⟨hres.1, hres.2.1⟩

/-- C9: the caller-supplied `headers` and `body` arguments are unchanged
after every call, whether it returns or raises: the Content-Type merge
builds a new mapping instead of updating the caller's mapping in place. -/
theorem caller_arguments_unchanged (t : SessionConfig → ClientSession)
    (m : RequestMethod) (url : String) (h : Option Headers) (b : JSON)
    (timeout : Int) (p : Option String) (dr : Bool) :
    (request t m url h b timeout p dr).callerHeadersAfter = h
    ∧ (request t m url h b timeout p dr).callerBodyAfter = b := by
  cases dr <;> exact ⟨rfl, rfl⟩

/-- C10: even with `dry_run` true, a session is still constructed (with the
configured timeouts) and, when `proxy_url` is supplied, a proxy connector is
still constructed from that URL; the dry-run branch skips only the verb
send. -/
theorem dry_run_still_constructs_session (t : SessionConfig → ClientSession)
    (m : RequestMethod) (url : String) (h : Option Headers) (b : JSON)
    (timeout : Int) (p : Option String) :
    (request t m url h b timeout p true).sessions =
      [{ timeout := { total := none, sock_connect := some timeout, sock_read := some timeout }
         connector := p.map ProxyConnector.from_url }]
    ∧ (request t m url h b timeout p true).connectors = (p.map ProxyConnector.from_url).toList
    ∧ (request t m url h b timeout p true).sends = [] :=
  ⟨rfl, rfl, rfl⟩

end RestRequests
